import Mathlib

set_option maxHeartbeats 1000000

/-
Formal model of the development-loop supervisor in brandonbloom/uni.

The embedding covers, faithfully to the source:
  - the control-loop goroutine of buildAndWatch.Run (part_001, lines 79-149),
    driven by an explicit trace of select outcomes and environment oracles;
  - the watcher relay goroutine (part_001, lines 151-170);
  - cmdProcess.Stop / Wait (internal/run.go, lines 139-162);
  - the entry-point watch registration that precedes the first build
    (part_001, lines 61-72).

Machine behavior outside the repository (esbuild results, process start and
wait outcomes, kill syscall outcomes, fsnotify events) is supplied by
oracles; everything the repository code decides is transcribed from it.
-/

/-- Result of one esbuild build or rebuild, modeled by its list of error
messages (the result.Errors field); the build succeeded iff the list is
empty, exactly the check len(result.Errors) == 0 used by the code. -/
structure BuildResult where
  errors : List String
deriving Repr, DecidableEq

/-- Behavior of one value returned by opts.CreateProcess(), as implemented by
cmdProcess in run.go: the outcome of Start() (none means success), the
outcome of the SIGTERM send performed by Stop() when the process had been
started (none means success), and the value that Wait() eventually returns,
which the waiter goroutine sends on the done channel. For a process exiting
abnormally, waitErr carries the exit status, e.g. some "exit status 7". -/
structure ProcessModel where
  startErr : Option String
  stopErr : Option String
  waitErr : Option String
deriving Repr, DecidableEq

/-- Environment oracles for one run: the stream of processes produced by
successive opts.CreateProcess() calls and the stream of results produced by
successive result.Rebuild() calls. -/
structure Env where
  procs : Nat → ProcessModel
  rebuilds : Nat → BuildResult

/-- Observable actions of the control loop, in program order. The entry
abortRaisedMark records the instant at which the abort channel was closed by
the environment (relay error path or context cancellation); exitObserved
records waitDone() completing its receive from the done channel;
doneObserved records the select itself receiving from the done channel. -/
inductive Act where
  | initialBuild
  | createProc
  | startOK
  | startFail
  | spawnWaiter
  | absorbedRestart
  | stopOK
  | stopFail
  | exitObserved
  | doneObserved
  | rebuildCalled
  | abortRaisedMark
deriving Repr, DecidableEq

/-- State of the control loop at the top of the for loop in buildAndWatch.Run
(part_001 lines 86-87): the current build result, the waitForChange flag, the
number of CreateProcess and Rebuild calls made so far, and whether the abort
channel has been closed. -/
structure LoopState where
  result : BuildResult
  waitForChange : Bool
  procIdx : Nat
  rebuildIdx : Nat
  abortRaised : Bool
deriving Repr, DecidableEq

/-- State of the control loop parked at the select (part_001 line 111): the
loop state as updated by the start phase, the process created at the top of
this iteration, and whether a waiter goroutine was spawned for it, i.e.
whether proc.Start() was called and succeeded. -/
structure SelState where
  base : LoopState
  proc : ProcessModel
  started : Bool
deriving Repr, DecidableEq

/-- Outcome of the phase preceding the select in one loop iteration
(part_001 lines 88-110): either the goroutine returns (start failure in
one-shot mode) or it reaches the select. -/
inductive PhaseOut where
  | ret (err : Option String)
  | selecting (s : SelState)
deriving Repr, DecidableEq

/-- Phase of one iteration before the select, transcribed from part_001
lines 88-110: proc := opts.CreateProcess(); buildOK := len(result.Errors) == 0;
shouldStart := buildOK && !waitForChange; if shouldStart, proc.Start() is
attempted: on failure the goroutine returns the error in one-shot mode, and
in watch mode logs and sets waitForChange; on success a waiter goroutine
sending proc.Wait() to the done channel is spawned. -/
def startPhase (watch : Bool) (env : Env) (s0 : LoopState) : PhaseOut × List Act :=
  let proc := env.procs s0.procIdx
  let s := { s0 with procIdx := s0.procIdx + 1 }
  let buildOK := s.result.errors.isEmpty
  let shouldStart := buildOK && !s.waitForChange
  if shouldStart then
    match proc.startErr with
    | some e =>
      if watch then
        (.selecting ⟨{ s with waitForChange := true }, proc, false⟩, [.createProc, .startFail])
      else
        (.ret (some e), [.createProc, .startFail])
    | none => (.selecting ⟨s, proc, true⟩, [.createProc, .startOK, .spawnWaiter])
  else
    (.selecting ⟨s, proc, false⟩, [.createProc])

/-- Result of the call proc.Stop() made by the control loop, where proc is the
cmdProcess of run.go: when Start() was never called successfully, cmd.Process
is nil and Stop returns nil (run.go lines 140-142); otherwise the result is
the outcome of sending the termination signal, supplied by the oracle. -/
def procStopResult (p : ProcessModel) (started : Bool) : Option String :=
  if started then p.stopErr else none

/-- Debounce drain of part_001 lines 120-129: each inner select either
receives another pending restart (a true entry) or the 50 ms delay fires (a
false entry, or the list ending); the loop exits at the first delay firing.
One absorbedRestart action is recorded per extra restart consumed. -/
def absorbActs : List Bool → List Act
  | [] => []
  | b :: rest => if b then .absorbedRestart :: absorbActs rest else []

/-- Which select case of part_001 line 111 fires: the abort channel (closed),
the restart channel (a pending restart signal, together with the inner
debounce drain schedule), or the done channel (the waiter goroutine delivered
the Wait() result). -/
inductive SelEvent where
  | selAbort
  | selRestart (extras : List Bool)
  | selDone
deriving Repr, DecidableEq

/-- Outcome of one select dispatch: the goroutine returns, continues looping
with a new state, blocks forever (a receive with no possible sender), or the
event was impossible in this state (a channel that could not be ready). -/
inductive SelOut where
  | ret (err : Option String)
  | next (s : LoopState)
  | stuck
  | invalid
deriving Repr, DecidableEq

/-- Select dispatch, transcribed from part_001 lines 111-147. On abort: stop
the process; if Stop failed, log and return nil; if Stop succeeded, run
waitDone() -- which receives from the done channel and therefore blocks
forever when no waiter goroutine was spawned -- then return nil. On restart:
drain extra restarts, stop the process the same way (again running waitDone()
only when Stop succeeded), then result = result.Rebuild() and
waitForChange = false. On done: in one-shot mode return the Wait() error; in
watch mode log and set waitForChange. -/
def selectStep (watch : Bool) (env : Env) (sel : SelState) : SelEvent → SelOut × List Act
  | .selAbort =>
    if sel.base.abortRaised then
      match procStopResult sel.proc sel.started with
      | some _ => (.ret none, [.stopFail])
      | none =>
        if sel.started then (.ret none, [.stopOK, .exitObserved])
        else (.stuck, [.stopOK])
    else (.invalid, [])
  | .selRestart extras =>
    (match procStopResult sel.proc sel.started with
     | some _ =>
       (.next { result := env.rebuilds sel.base.rebuildIdx,
                waitForChange := false,
                procIdx := sel.base.procIdx,
                rebuildIdx := sel.base.rebuildIdx + 1,
                abortRaised := sel.base.abortRaised },
        absorbActs extras ++ [.stopFail, .rebuildCalled])
     | none =>
       if sel.started then
         (.next { result := env.rebuilds sel.base.rebuildIdx,
                  waitForChange := false,
                  procIdx := sel.base.procIdx,
                  rebuildIdx := sel.base.rebuildIdx + 1,
                  abortRaised := sel.base.abortRaised },
          absorbActs extras ++ [.stopOK, .exitObserved, .rebuildCalled])
       else (.stuck, absorbActs extras ++ [.stopOK]))
  | .selDone =>
    if sel.started then
      if watch then
        (.next { sel.base with waitForChange := true }, [.doneObserved])
      else (.ret sel.proc.waitErr, [.doneObserved])
    else (.invalid, [])

/-- Trace entries driving a run: either the environment closes the abort
channel (the relay on a watcher error or ctx.Done, or the one-shot ctx
goroutine of part_001 lines 172-175), or the select dispatches one case. -/
inductive Event where
  | raiseAbort
  | sel (e : SelEvent)
deriving Repr, DecidableEq

/-- Result of running the control-loop goroutine on a finite trace: it
returned a value, it is blocked forever, an impossible event occurred in the
trace, or the trace ended with the loop parked at the select. Every
constructor carries the actions performed, in order. -/
inductive RunTraceResult where
  | returned (err : Option String) (acts : List Act)
  | stuck (acts : List Act)
  | invalid (acts : List Act)
  | parked (s : SelState) (acts : List Act)
deriving Repr, DecidableEq

/-- Actions carried by a run result. -/
def RunTraceResult.actions : RunTraceResult → List Act
  | .returned _ a => a
  | .stuck a => a
  | .invalid a => a
  | .parked _ a => a

/-- Prefix further actions onto a run result. -/
def prependActs (a : List Act) : RunTraceResult → RunTraceResult
  | .returned e b => .returned e (a ++ b)
  | .stuck b => .stuck (a ++ b)
  | .invalid b => .invalid (a ++ b)
  | .parked s b => .parked s (a ++ b)

/-- Record that the abort channel is now closed. Closing is idempotent and
never undone, matching close(abort) on the close-once channel. -/
def SelState.raise (sel : SelState) : SelState :=
  { sel with base := { sel.base with abortRaised := true } }

/-- Run the loop from a parked select through a trace of events. After a
continuing select dispatch, the next start phase runs immediately (the code
reaches the next select only through the top of the for loop), so it is
performed here before the next event is consumed. -/
def consumeEvents (watch : Bool) (env : Env) (sel : SelState) : List Event → RunTraceResult
  | [] => .parked sel []
  | .raiseAbort :: evs =>
    prependActs [.abortRaisedMark] (consumeEvents watch env sel.raise evs)
  | .sel e :: evs =>
    match selectStep watch env sel e with
    | (.ret err, acts) => .returned err acts
    | (.stuck, acts) => .stuck acts
    | (.invalid, acts) => .invalid acts
    | (.next s, acts) =>
      match startPhase watch env s with
      | (.ret e2, acts2) => .returned e2 (acts ++ acts2)
      | (.selecting sel2, acts2) => prependActs (acts ++ acts2) (consumeEvents watch env sel2 evs)

/-- Body of the control-loop goroutine (part_001 lines 79-149): if the
initial build failed and watch mode is off, return the error "build error";
otherwise enter the for loop with waitForChange = false. -/
def goMain (watch : Bool) (env : Env) (initial : BuildResult) (evs : List Event) : RunTraceResult :=
  if !initial.errors.isEmpty && !watch then .returned (some "build error") []
  else
    match startPhase watch env ⟨initial, false, 0, 0, false⟩ with
    | (.ret e, acts) => .returned e acts
    | (.selecting sel, acts) => prependActs acts (consumeEvents watch env sel evs)

/-- Count of one action in an action list. -/
def countA (a : Act) : List Act → Nat
  | [] => 0
  | b :: rest => (if b = a then 1 else 0) + countA a rest

/-- Whether an action list contains a given action. -/
def hasAction (a : Act) : List Act → Bool
  | [] => false
  | b :: rest => if b = a then true else hasAction a rest

/-- Whether some startOK action occurs after some abortRaisedMark action. -/
def startAfterAbort : List Act → Bool
  | [] => false
  | .abortRaisedMark :: rest => hasAction .startOK rest || startAfterAbort rest
  | _ :: rest => startAfterAbort rest

/-- Scanner for the start-separation property: walking the action list, after
any startOK a further startOK is allowed only once the previous process had
its stop resolved, and, when the stop send succeeded, its exit observed. A
stopFail entry resolves the obligation entirely (the stop was attempted and
failed; the code then proceeds without observing the exit); a stopOK entry
additionally requires an exitObserved entry before the next start. -/
def startsSepAux (started stopped exited : Bool) : List Act → Bool
  | [] => true
  | .startOK :: rest => (!started || (stopped && exited)) && startsSepAux true false false rest
  | .stopOK :: rest => startsSepAux started true exited rest
  | .stopFail :: rest => startsSepAux started true true rest
  | .exitObserved :: rest => startsSepAux started stopped true rest
  | _ :: rest => startsSepAux started stopped exited rest

/-- Start-separation property of a whole action list. -/
def startsSeparated (acts : List Act) : Bool :=
  startsSepAux false false false acts

/-- Scanner for the start-separation property exactly as claim I2 words it:
after any startOK, a further startOK is allowed only once a stop request was
issued for the previous process (a stopOK or stopFail entry) AND its exit was
observed (an exitObserved entry). -/
def startsSepStrictAux (started stopped exited : Bool) : List Act → Bool
  | [] => true
  | .startOK :: rest =>
    (!started || (stopped && exited)) && startsSepStrictAux true false false rest
  | .stopOK :: rest => startsSepStrictAux started true exited rest
  | .stopFail :: rest => startsSepStrictAux started true exited rest
  | .exitObserved :: rest => startsSepStrictAux started stopped true rest
  | _ :: rest => startsSepStrictAux started stopped exited rest

/-- Start-separation property of a whole action list, in the strict form of
claim I2. -/
def startsSeparatedStrict (acts : List Act) : Bool :=
  startsSepStrictAux false false false acts

/-- Environment in which every process starts, stops and waits cleanly and
every rebuild succeeds. -/
def env0 : Env :=
  ⟨fun _ => ⟨none, none, none⟩, fun _ => ⟨[]⟩⟩

/-- Environment whose first process starts but whose stop send fails, and
whose later processes behave cleanly; every rebuild succeeds. -/
def envStopFails : Env :=
  ⟨fun n => if n = 0 then ⟨none, some "operation not permitted", none⟩ else ⟨none, none, none⟩,
   fun _ => ⟨[]⟩⟩

/-- Environment whose first process runs and exits with status 7. -/
def envExit7 : Env :=
  ⟨fun _ => ⟨none, none, some "exit status 7"⟩, fun _ => ⟨[]⟩⟩

/- ----------------------------------------------------------------- -/
/- Watcher relay goroutine (part_001 lines 151-170).                 -/
/- ----------------------------------------------------------------- -/

/-- Events observable by the relay select (part_001 lines 154-168): a value
received from watcher.Events, the Events channel closing, a value received
from watcher.Errors, the Errors channel closing, and ctx.Done firing. -/
inductive WatcherEvent where
  | fsEvent
  | eventsClosed
  | fsError (msg : String)
  | errorsClosed
  | ctxDone
deriving Repr, DecidableEq

/-- Outcome of one relay select iteration: the goroutine loops again (with
the given occupancy of the capacity-1 restart channel), or it performs a
send on the full restart channel and therefore blocks until the control loop
receives, after which the channel again holds one signal and the goroutine
loops, or it returns, possibly closing the abort channel first. -/
inductive RelayOutcome where
  | continues (restartPending : Bool)
  | blockedSendThenContinues
  | returns (err : Option String) (closesAbort : Bool)
deriving Repr, DecidableEq

/-- One iteration of the relay goroutine, transcribed from part_001 lines
153-169. restartPending models whether the capacity-1 restart channel holds
a signal. On a value from watcher.Events the code performs the plain send
restart <- struct, which blocks whenever the channel is full. On the Events
channel closing it returns nil. On a value from watcher.Errors with ok true,
no branch body runs and the loop just continues, the error being discarded.
On the Errors channel closing, err is the zero value nil, close(abort) runs
and nil is returned. On ctx.Done, close(abort) runs and nil is returned. -/
def relayStep (restartPending : Bool) : WatcherEvent → RelayOutcome
  | .fsEvent => if restartPending then .blockedSendThenContinues else .continues true
  | .eventsClosed => .returns none false
  | .fsError _ => .continues restartPending
  | .errorsClosed => .returns none true
  | .ctxDone => .returns none true

/-- Modelled from the spec (invariant I3), for comparison with relayStep:
the spec states that a file-change notification arriving while a restart
signal is already pending is dropped, the relay continuing without blocking,
and that a notification arriving while the channel is idle deposits one
signal. In both cases the relay continues immediately. -/
def relaySpecFsEvent (_restartPending : Bool) : RelayOutcome :=
  .continues true

/- ----------------------------------------------------------------- -/
/- cmdProcess.Stop (internal/run.go lines 139-155).                  -/
/- ----------------------------------------------------------------- -/

/-- Grace period before the forced kill, in milliseconds (run.go line 34:
maxProcStopWait = 5 * time.Second). -/
def maxProcStopWait : Nat := 5000

/-- Signals used by Stop. -/
inductive Sig where
  | sigterm
  | sigkill
deriving Repr, DecidableEq

/-- Target of a kill: the whole process group of pid (a negative pid
argument to the kill syscall) or the single process. -/
inductive KillTarget where
  | group (pid : Int)
  | single (pid : Int)
deriving Repr, DecidableEq

/-- One kill request. -/
structure KillCall where
  target : KillTarget
  signal : Sig
deriving Repr, DecidableEq

/-- Effects of one call to cmdProcess.Stop: the kill calls issued before
returning, the kill calls scheduled on the timer goroutine together with
their delay in milliseconds, whether Stop blocks until process exit, and the
value Stop returns. -/
structure StopBehavior where
  immediate : List KillCall
  scheduled : List (Nat × KillCall)
  waitsForExit : Bool
  result : Option String
deriving Repr, DecidableEq

/-- cmdProcess.Stop, transcribed from run.go lines 139-155. procPid = none
models cmd.Process == nil, i.e. the process was never started; termSendErr
and killErr model the outcomes of the group SIGTERM send and of the single
Kill respectively. With a never-started process, Stop returns nil at once.
On windows, Stop calls cmd.Process.Kill() on the single process and returns
its outcome. Otherwise it spawns a goroutine that sleeps maxProcStopWait and
then sends SIGKILL to the process group, and returns the outcome of sending
SIGTERM to the process group, without waiting for the exit. -/
def cmdProcessStop (goos : String) (procPid : Option Int)
    (termSendErr : Option String) (killErr : Option String) : StopBehavior :=
  match procPid with
  | none => ⟨[], [], false, none⟩
  | some pid =>
    if goos = "windows" then
      ⟨[⟨.single pid, .sigkill⟩], [], false, killErr⟩
    else
      ⟨[⟨.group pid, .sigterm⟩], [(maxProcStopWait, ⟨.group pid, .sigkill⟩)], false, termSendErr⟩

/- ----------------------------------------------------------------- -/
/- Entry-point watch registration (part_001 lines 61-72).            -/
/- ----------------------------------------------------------------- -/

/-- Entry-point watch registration loop, transcribed from part_001 lines
61-70: for each entry point, a relative path is joined onto the repository
root, then watcher.Add is called; on the first failure the wrapped error
watching <path>: <err> is returned. The filepath.IsAbs and filepath.Join
library functions and the watcher.Add outcome are supplied as oracles. -/
def addEntrypointWatches (isAbs : String → Bool) (join : String → String → String)
    (watcherAdd : String → Option String) (rootDir : String) :
    List String → Option String
  | [] => none
  | ep :: rest =>
    let epAbs := if isAbs ep then ep else join rootDir ep
    match watcherAdd epAbs with
    | some e => some ("watching \x22" ++ epAbs ++ "\x22: " ++ e)
    | none => addEntrypointWatches isAbs join watcherAdd rootDir rest

/-- Result of buildAndWatch.Run at the top level: an early return from the
entry-point registration loop, or the run proceeded to the build and the
control loop. -/
inductive RunOutcome where
  | earlyWatchErr (e : String)
  | looped (r : RunTraceResult)
deriving Repr, DecidableEq

/-- Top level of buildAndWatch.Run (part_001 lines 61-78): in watch mode the
entry points are registered with the watcher first, any failure returning
immediately; only then does api.Build run (recorded by the initialBuild
action) and the goroutines start. -/
def buildAndWatchRun (watch : Bool) (isAbs : String → Bool)
    (join : String → String → String) (watcherAdd : String → Option String)
    (rootDir : String) (entryPoints : List String)
    (env : Env) (initial : BuildResult) (evs : List Event) : RunOutcome × List Act :=
  if watch then
    match addEntrypointWatches isAbs join watcherAdd rootDir entryPoints with
    | some e => (.earlyWatchErr e, [])
    | none =>
      (.looped (goMain watch env initial evs),
       .initialBuild :: (goMain watch env initial evs).actions)
  else
    (.looped (goMain watch env initial evs),
     .initialBuild :: (goMain watch env initial evs).actions)

/- ----------------------------------------------------------------- -/
/- Helper lemmas.                                                    -/
/- ----------------------------------------------------------------- -/

theorem actions_prependActs (a : List Act) (r : RunTraceResult) :
    (prependActs a r).actions = a ++ r.actions := by
  cases r <;> rfl

theorem startsSepAux_absorb (extras : List Bool) (st sp ex : Bool) (l : List Act) :
    startsSepAux st sp ex (absorbActs extras ++ l) = startsSepAux st sp ex l := by
  induction extras with
  | nil => rfl
  | cons b rest ih =>
    cases b
    · rfl
    · simpa [absorbActs, startsSepAux] using ih

theorem countA_append (a : Act) (l1 l2 : List Act) :
    countA a (l1 ++ l2) = countA a l1 + countA a l2 := by
  induction l1 with
  | nil => simp [countA]
  | cons b rest ih => simp [countA, ih]; omega

theorem countA_absorb (a : Act) (extras : List Bool) (h : a ≠ .absorbedRestart) :
    countA a (absorbActs extras) = 0 := by
  induction extras with
  | nil => rfl
  | cons b rest ih =>
    cases b
    · rfl
    · simpa [absorbActs, countA, h, Ne.symm h] using ih

theorem sep_consume_notStarted (watch : Bool) (env : Env) :
    ∀ (evs : List Event) (base : LoopState) (proc : ProcessModel) (st sp ex : Bool),
      startsSepAux st sp ex (consumeEvents watch env ⟨base, proc, false⟩ evs).actions = true := by
  intro evs
  induction evs with
  | nil => intro base proc st sp ex; rfl
  | cons ev evs ih =>
    intro base proc st sp ex
    cases ev with
    | raiseAbort =>
      simp only [consumeEvents, SelState.raise, actions_prependActs]
      simpa [startsSepAux] using ih { base with abortRaised := true } proc st sp ex
    | sel e =>
      cases e with
      | selAbort =>
        cases hab : base.abortRaised <;>
          simp [consumeEvents, selectStep, procStopResult, hab,
            RunTraceResult.actions, startsSepAux]
      | selRestart extras =>
        simp [consumeEvents, selectStep, procStopResult,
          RunTraceResult.actions, startsSepAux_absorb, startsSepAux]
      | selDone =>
        simp [consumeEvents, selectStep, RunTraceResult.actions, startsSepAux]

theorem actions_returned (e : Option String) (a : List Act) :
    (RunTraceResult.returned e a).actions = a := rfl

theorem actions_stuck (a : List Act) : (RunTraceResult.stuck a).actions = a := rfl

theorem actions_invalid (a : List Act) : (RunTraceResult.invalid a).actions = a := rfl

theorem actions_parked (s : SelState) (a : List Act) :
    (RunTraceResult.parked s a).actions = a := rfl

theorem sep_consume_started (watch : Bool) (env : Env) :
    ∀ (evs : List Event) (base : LoopState) (proc : ProcessModel),
      startsSepAux true false false (consumeEvents watch env ⟨base, proc, true⟩ evs).actions = true := by
  intro evs
  induction evs with
  | nil => intro base proc; rfl
  | cons ev evs ih =>
    intro base proc
    cases ev with
    | raiseAbort =>
      simp only [consumeEvents, SelState.raise, actions_prependActs]
      simpa [startsSepAux] using ih { base with abortRaised := true } proc
    | sel e =>
      cases e with
      | selAbort =>
        cases hab : base.abortRaised
        · simp [consumeEvents, selectStep, hab, actions_returned, actions_stuck, actions_invalid, actions_parked, startsSepAux]
        · cases hstop : proc.stopErr <;>
            simp [consumeEvents, selectStep, procStopResult, hab, hstop,
              actions_returned, actions_stuck, actions_invalid, actions_parked, startsSepAux]
      | selDone =>
        cases hw : watch
        · simp [consumeEvents, selectStep, hw, actions_returned, actions_stuck, actions_invalid, actions_parked, startsSepAux]
        · simp [consumeEvents, selectStep, hw, startPhase, actions_prependActs,
            actions_returned, actions_stuck, actions_invalid, actions_parked, startsSepAux]
          exact sep_consume_notStarted true env evs _ _ true false false
      | selRestart extras =>
        cases hstop : proc.stopErr
        · cases hb : (env.rebuilds base.rebuildIdx).errors.isEmpty
          · simp [consumeEvents, selectStep, procStopResult, hstop, startPhase, hb,
              actions_prependActs, actions_returned, actions_stuck, actions_invalid, actions_parked, startsSepAux_absorb, startsSepAux]
            exact sep_consume_notStarted watch env evs _ _ true true true
          · cases hse : (env.procs base.procIdx).startErr
            · simp [consumeEvents, selectStep, procStopResult, hstop, startPhase, hb, hse,
                actions_prependActs, actions_returned, actions_stuck, actions_invalid, actions_parked, startsSepAux_absorb, startsSepAux]
              exact ih _ _
            · cases hw : watch
              · simp [consumeEvents, selectStep, procStopResult, hstop, startPhase, hb, hse,
                  hw, actions_prependActs, actions_returned, actions_stuck, actions_invalid, actions_parked, startsSepAux_absorb,
                  startsSepAux]
              · simp [consumeEvents, selectStep, procStopResult, hstop, startPhase, hb, hse,
                  hw, actions_prependActs, actions_returned, actions_stuck, actions_invalid, actions_parked, startsSepAux_absorb,
                  startsSepAux]
                exact sep_consume_notStarted true env evs _ _ true true true
        · cases hb : (env.rebuilds base.rebuildIdx).errors.isEmpty
          · simp [consumeEvents, selectStep, procStopResult, hstop, startPhase, hb,
              actions_prependActs, actions_returned, actions_stuck, actions_invalid, actions_parked, startsSepAux_absorb, startsSepAux]
            exact sep_consume_notStarted watch env evs _ _ true true true
          · cases hse : (env.procs base.procIdx).startErr
            · simp [consumeEvents, selectStep, procStopResult, hstop, startPhase, hb, hse,
                actions_prependActs, actions_returned, actions_stuck, actions_invalid, actions_parked, startsSepAux_absorb, startsSepAux]
              exact ih _ _
            · cases hw : watch
              · simp [consumeEvents, selectStep, procStopResult, hstop, startPhase, hb, hse,
                  hw, actions_prependActs, actions_returned, actions_stuck, actions_invalid, actions_parked, startsSepAux_absorb,
                  startsSepAux]
              · simp [consumeEvents, selectStep, procStopResult, hstop, startPhase, hb, hse,
                  hw, actions_prependActs, actions_returned, actions_stuck, actions_invalid, actions_parked, startsSepAux_absorb,
                  startsSepAux]
                exact sep_consume_notStarted true env evs _ _ true true true

/- ----------------------------------------------------------------- -/
/- Claim theorems.                                                   -/
/- ----------------------------------------------------------------- -/

/-- C1: the spec claims that on receipt of an error event from the
notification source the relay raises AbortSignal, terminates, and surfaces
that error as the terminal error of Run. Evaluating the relay code at an
error event shows the opposite: the branch that receives a value from
watcher.Errors (ok true) has no body, so the relay just keeps looping,
neither closing abort nor returning the error; abort is closed, with a nil
error, only when the Errors channel itself closes, and the Events channel
closing terminates the relay without closing abort. -/
theorem C1_relay_ignores_error_event :
    relayStep false (.fsError "watch failure") = .continues false ∧
    relayStep true (.fsError "watch failure") = .continues true ∧
    relayStep false .errorsClosed = .returns none true ∧
    relayStep false .eventsClosed = .returns none false :=
  ⟨rfl, rfl, rfl, rfl⟩

/-- C2 counterexample: the claim states that a file-change notification
arriving while a restart signal is already pending in the capacity-1 channel
is dropped rather than blocked on. In the code the relay performs the plain
send restart <- struct, which blocks on a full channel until the control
loop receives: the outcome differs from the drop-and-continue behavior that
the spec describes (relaySpecFsEvent). -/
theorem C2_counterexample :
    relayStep true .fsEvent = .blockedSendThenContinues ∧
    decide (relayStep true .fsEvent = relaySpecFsEvent true) = false :=
  ⟨rfl, by decide⟩

/-- C2 amended: the restart channel has capacity 1, so at most one restart
signal is ever pending; a notification arriving while the channel is idle
deposits one signal without blocking, and a notification arriving while a
signal is already pending blocks the relay until the control loop drains the
channel, the notification being delivered afterwards rather than dropped. -/
theorem C2_amended_send_blocks_when_pending (pending : Bool) :
    relayStep pending .fsEvent =
      (if pending then RelayOutcome.blockedSendThenContinues else .continues true) := by
  cases pending <;> rfl

/-- C3: the claim states that in watch mode a failed build followed by a
restart signal leads to a fresh rebuild attempt and the loop does not get
stuck. Evaluating the loop at that input shows the code blocking forever:
Stop on the never-started process returns nil, so waitDone() runs and
receives from the done channel, on which nothing will ever send because no
waiter goroutine was spawned; Rebuild is never reached. -/
theorem C3_restart_after_build_failure_blocks_forever :
    goMain true env0 ⟨["1 error"]⟩ [.sel (.selRestart [])] =
      .stuck [.createProc, .stopOK] ∧
    countA .rebuildCalled (goMain true env0 ⟨["1 error"]⟩ [.sel (.selRestart [])]).actions = 0 :=
  ⟨rfl, rfl⟩

/-- C4: the claim states that on AbortSignal the supervisor stops any
current process, waits for its exit and returns nil, including from the
WaitingForChange state. Evaluating the loop shows that with a live process
this holds, but in the WaitingForChange state (here: after a failed initial
build) Stop on the never-started process returns nil and waitDone() then
blocks forever on the done channel, so the goroutine never returns at
all. -/
theorem C4_abort_in_waiting_for_change_blocks_forever :
    goMain true env0 ⟨["1 error"]⟩ [.raiseAbort, .sel .selAbort] =
      .stuck [.createProc, .abortRaisedMark, .stopOK] ∧
    goMain true env0 ⟨[]⟩ [.raiseAbort, .sel .selAbort] =
      .returned none
        [.createProc, .startOK, .spawnWaiter, .abortRaisedMark, .stopOK, .exitObserved] :=
  ⟨rfl, rfl⟩

/-- C5 counterexample: the claim states that once AbortSignal has been
raised no new process is ever started. In the run below abort is raised
while the loop is parked at the select with a pending restart also ready;
the select legitimately picks the restart case, the cycle completes, and the
next iteration starts a fresh process after the abort was already raised:
a startOK action occurs after the abortRaisedMark action. -/
theorem C5_counterexample :
    (goMain true env0 ⟨[]⟩ [.raiseAbort, .sel (.selRestart [])]).actions =
      [.createProc, .startOK, .spawnWaiter, .abortRaisedMark, .stopOK, .exitObserved,
       .rebuildCalled, .createProc, .startOK, .spawnWaiter] ∧
    startAfterAbort (goMain true env0 ⟨[]⟩ [.raiseAbort, .sel (.selRestart [])]).actions = true :=
  ⟨rfl, rfl⟩

/-- C5 amended: once the control loop observes AbortSignal at its select, no
new process is started: the abort branch either returns nil or blocks
forever in waitDone(), and in both cases performs no further CreateProcess
or Start. -/
theorem C5_amended_no_start_after_abort_observed (watch : Bool) (env : Env)
    (sel : SelState) (evs : List Event) (h : sel.base.abortRaised = true) :
    ∃ acts,
      (consumeEvents watch env sel (.sel .selAbort :: evs) = .returned none acts ∨
       consumeEvents watch env sel (.sel .selAbort :: evs) = .stuck acts) ∧
      hasAction .startOK acts = false ∧ hasAction .createProc acts = false := by
  obtain ⟨base, proc, started⟩ := sel
  simp only at h
  cases started
  · refine ⟨[.stopOK], ?_, rfl, rfl⟩
    right
    simp [consumeEvents, selectStep, procStopResult, h]
  · cases hstop : proc.stopErr
    · refine ⟨[.stopOK, .exitObserved], ?_, rfl, rfl⟩
      left
      simp [consumeEvents, selectStep, procStopResult, h, hstop]
    · refine ⟨[.stopFail], ?_, rfl, rfl⟩
      left
      simp [consumeEvents, selectStep, procStopResult, h, hstop]

/-- C5 amended, witness: the amended theorem applied at a concrete parked
state with a live process and abort raised. -/
theorem C5_amended_no_start_after_abort_observed_witness :
    ∃ acts,
      (consumeEvents true env0 ⟨⟨⟨[]⟩, false, 1, 0, true⟩, ⟨none, none, none⟩, true⟩
          [.sel .selAbort] = .returned none acts ∨
       consumeEvents true env0 ⟨⟨⟨[]⟩, false, 1, 0, true⟩, ⟨none, none, none⟩, true⟩
          [.sel .selAbort] = .stuck acts) ∧
      hasAction .startOK acts = false ∧ hasAction .createProc acts = false :=
  C5_amended_no_start_after_abort_observed true env0
    ⟨⟨⟨[]⟩, false, 1, 0, true⟩, ⟨none, none, none⟩, true⟩ [] rfl

/-- C6: cmdProcess.Stop on a never-started process returns success with no
kill issued; on windows it performs an immediate unconditional kill of the
single process, with no grace period; on any other platform it sends the
graceful SIGTERM to the whole process group, schedules a forced SIGKILL of
the same group after the 5-second grace period (maxProcStopWait = 5000 ms),
and returns the outcome of the SIGTERM send without waiting for the exit. -/
theorem C6_stop_semantics (goos : String) (pid : Int) (te ke : Option String) :
    cmdProcessStop goos none te ke = ⟨[], [], false, none⟩ ∧
    cmdProcessStop "windows" (some pid) te ke = ⟨[⟨.single pid, .sigkill⟩], [], false, ke⟩ ∧
    (goos ≠ "windows" →
      cmdProcessStop goos (some pid) te ke =
        ⟨[⟨.group pid, .sigterm⟩], [(maxProcStopWait, ⟨.group pid, .sigkill⟩)], false, te⟩) ∧
    maxProcStopWait = 5000 := by
  refine ⟨rfl, rfl, ?_, rfl⟩
  intro h
  simp [cmdProcessStop, h]

/-- C6 witness: the theorem applied on linux at pid 42 with a clean SIGTERM
send. -/
theorem C6_stop_semantics_witness :
    cmdProcessStop "linux" (some 42) none (some "kill failed") =
      ⟨[⟨.group 42, .sigterm⟩], [(maxProcStopWait, ⟨.group 42, .sigkill⟩)], false, none⟩ :=
  (C6_stop_semantics "linux" 42 none (some "kill failed")).2.2.1 (by decide)

/-- C7: in one-shot mode, a failed initial build makes the goroutine return
the error build error before any CreateProcess or Start (the action list is
empty), and with a successful build the process exit delivered on the done
channel is returned as the terminal result, carrying the exit status that
Wait() produced. -/
theorem C7_one_shot_exit_propagation (env : Env) (evs : List Event)
    (m : String) (ms : List String) (h : (env.procs 0).startErr = none) :
    goMain false env ⟨m :: ms⟩ evs = .returned (some "build error") [] ∧
    goMain false env ⟨[]⟩ (.sel .selDone :: evs) =
      .returned (env.procs 0).waitErr [.createProc, .startOK, .spawnWaiter, .doneObserved] := by
  constructor
  · rfl
  · simp [goMain, startPhase, consumeEvents, selectStep, h, prependActs]

/-- C7 witness: the theorem applied to an environment whose process exits
with status 7; the supervisor result carries exit status 7, and a failed
build returns build error with no process created. -/
theorem C7_one_shot_exit_propagation_witness :
    goMain false envExit7 ⟨["1 diagnostic"]⟩ [] = .returned (some "build error") [] ∧
    goMain false envExit7 ⟨[]⟩ [.sel .selDone] =
      .returned (some "exit status 7") [.createProc, .startOK, .spawnWaiter, .doneObserved] :=
  C7_one_shot_exit_propagation envExit7 [] "1 diagnostic" [] rfl

/-- C8: a burst of change notifications coalesced into one restart dispatch
(the triggering signal plus any number of extra signals drained by the
debounce loop) produces exactly one stop, one rebuild and one new start:
over the whole run the counts are one stopOK, no stopFail, one
rebuildCalled, and two startOK (the initial start plus the single restart
of the cycle), for every drain schedule extras. -/
theorem C8_burst_coalesced_to_one_cycle (env : Env) (extras : List Bool)
    (h0 : (env.procs 0).startErr = none) (h0s : (env.procs 0).stopErr = none)
    (hr : (env.rebuilds 0).errors = []) (h1 : (env.procs 1).startErr = none) :
    countA .rebuildCalled (goMain true env ⟨[]⟩ [.sel (.selRestart extras)]).actions = 1 ∧
    countA .stopOK (goMain true env ⟨[]⟩ [.sel (.selRestart extras)]).actions = 1 ∧
    countA .stopFail (goMain true env ⟨[]⟩ [.sel (.selRestart extras)]).actions = 0 ∧
    countA .startOK (goMain true env ⟨[]⟩ [.sel (.selRestart extras)]).actions = 2 := by
  have hgo : goMain true env ⟨[]⟩ [.sel (.selRestart extras)] =
      .parked ⟨⟨env.rebuilds 0, false, 2, 1, false⟩, env.procs 1, true⟩
        ([.createProc, .startOK, .spawnWaiter] ++
          (absorbActs extras ++
            [.stopOK, .exitObserved, .rebuildCalled, .createProc, .startOK, .spawnWaiter])) := by
    simp [goMain, startPhase, consumeEvents, selectStep, procStopResult, h0, h0s, hr, h1,
      prependActs]
  rw [hgo, actions_parked]
  refine ⟨?_, ?_, ?_, ?_⟩ <;>
    simp [countA_append, countA_absorb, countA]

/-- C8 witness: the theorem applied to the clean environment with two extra
notifications drained inside the quiet window (three notifications in
total), yielding exactly one stop-rebuild-restart cycle. -/
theorem C8_burst_coalesced_to_one_cycle_witness :
    countA .rebuildCalled (goMain true env0 ⟨[]⟩ [.sel (.selRestart [true, true])]).actions = 1 ∧
    countA .stopOK (goMain true env0 ⟨[]⟩ [.sel (.selRestart [true, true])]).actions = 1 ∧
    countA .stopFail (goMain true env0 ⟨[]⟩ [.sel (.selRestart [true, true])]).actions = 0 ∧
    countA .startOK (goMain true env0 ⟨[]⟩ [.sel (.selRestart [true, true])]).actions = 2 :=
  C8_burst_coalesced_to_one_cycle env0 [true, true] rfl rfl rfl rfl

/-- C9 counterexample: the claim states that a new process is never started
before the previous one has been confirmed stopped, meaning a stop request
issued and its exit observed. In the run below the stop request for the
first process fails, the loop logs, skips waitDone(), rebuilds and starts a
second process: two startOK actions occur with no exitObserved at all, and
the strict separation scanner rejects the action list. -/
theorem C9_counterexample :
    (goMain true envStopFails ⟨[]⟩ [.sel (.selRestart [])]).actions =
      [.createProc, .startOK, .spawnWaiter, .stopFail, .rebuildCalled,
       .createProc, .startOK, .spawnWaiter] ∧
    countA .startOK (goMain true envStopFails ⟨[]⟩ [.sel (.selRestart [])]).actions = 2 ∧
    countA .exitObserved (goMain true envStopFails ⟨[]⟩ [.sel (.selRestart [])]).actions = 0 ∧
    startsSeparatedStrict (goMain true envStopFails ⟨[]⟩ [.sel (.selRestart [])]).actions = false :=
  ⟨rfl, rfl, rfl, rfl⟩

/-- C9 amended: except for the very first start, a new process is started
only after a stop request for the previous process has been issued, and,
whenever that stop request succeeded, only after the previous exit was also
observed; when the stop request fails the loop may proceed to a new start
without observing the previous exit. This holds over every run of the
control loop, in both modes. -/
theorem C9_amended_starts_separated (watch : Bool) (env : Env)
    (initial : BuildResult) (evs : List Event) :
    startsSeparated (goMain watch env initial evs).actions = true := by
  unfold startsSeparated
  cases hi : initial.errors.isEmpty
  · cases hw : watch
    · simp [goMain, hi, hw, actions_returned, startsSepAux]
    · simp only [goMain, hi, hw, startPhase, Bool.false_and, Bool.not_false, Bool.and_true,
        Bool.not_true, Bool.and_false]
      simp [actions_prependActs, startsSepAux]
      exact sep_consume_notStarted true env evs _ _ false false false
  · cases hse : (env.procs 0).startErr
    · simp only [goMain, hi, hse, startPhase]
      simp [hi, hse, actions_prependActs, startsSepAux]
      exact sep_consume_started watch env evs _ _
    · cases hw : watch
      · simp [goMain, hi, hse, hw, startPhase, actions_returned, startsSepAux]
      · simp only [goMain, hi, hse, hw, startPhase]
        simp [hi, hse, actions_prependActs, startsSepAux]
        exact sep_consume_notStarted true env evs _ _ false false false

/-- C10: in watch mode, when registering one of the explicit entry points
with the filesystem watcher fails, Run returns the wrapped registration
error immediately: the initial build is never attempted and no process is
ever created (the action list is empty). -/
theorem C10_entrypoint_watch_failure_early_return (isAbs : String → Bool)
    (join : String → String → String) (watcherAdd : String → Option String)
    (rootDir : String) (entryPoints : List String) (env : Env)
    (initial : BuildResult) (evs : List Event) (e : String)
    (h : addEntrypointWatches isAbs join watcherAdd rootDir entryPoints = some e) :
    buildAndWatchRun true isAbs join watcherAdd rootDir entryPoints env initial evs =
      (.earlyWatchErr e, []) := by
  simp [buildAndWatchRun, h]

/-- C10 witness: the theorem applied to a single relative entry point whose
watcher registration fails with no such file. -/
theorem C10_entrypoint_watch_failure_early_return_witness :
    buildAndWatchRun true (fun _ => false) (fun a b => a ++ "/" ++ b)
        (fun _ => some "no such file") "/repo" ["src/main.ts"] env0 ⟨[]⟩ [] =
      (.earlyWatchErr "watching \x22/repo/src/main.ts\x22: no such file", []) :=
  C10_entrypoint_watch_failure_early_return (fun _ => false) (fun a b => a ++ "/" ++ b)
    (fun _ => some "no such file") "/repo" ["src/main.ts"] env0 ⟨[]⟩ []
    "watching \x22/repo/src/main.ts\x22: no such file" rfl
